import Mathlib

/-!
Shallow embedding of the `graphql_django_dataloader` demonstration
repository: the seven batch functions of its four GraphQL variants
(ariadne, graphene, strawberry, graphdb), the graphene data-loader
middleware, the Neo4j DAO layer, and a model of the key-deduplication
contract of the `SyncDataLoader` the variants plug their batch functions
into.  Relational backend state is a list of review rows in the order
the backend returns them; the Neo4j backend state is a list of REVIEWED
relationships in return order.
-/

/-- Model of a Python `defaultdict(list)` filled by
`for r in rows: d[key(r)].append(r)` and then read with `d[k]` or
`d.get(k, [])`: a total function from keys to the accumulated rows,
`[]` for absent keys.  Each loop iteration appends `r` at the end of
the entry for `key r`. -/
def groupAppend {κ α : Type} [DecidableEq κ] (key : α → κ) (rows : List α) : κ → List α :=
  rows.foldl (fun d r => fun k => if k = key r then d k ++ [r] else d k) (fun _ => [])

/-- Model of a Python `dict` filled by `for r in rows: d[key(r)] = val(r)`
(equivalently the comprehension `\x7bkey(r): val(r) for r in rows\x7d`) and
read with `d.get(k)`: a total function from keys to `Option`, `none` for
absent keys; a later iteration overwrites an earlier one with the same key. -/
def dictOverwrite {κ α β : Type} [DecidableEq κ] (key : α → κ) (val : α → β)
    (rows : List α) : κ → Option β :=
  rows.foldl (fun d r => fun k => if k = key r then some (val r) else d k) (fun _ => none)

theorem groupAppend_go {κ α : Type} [DecidableEq κ] (key : α → κ) (rows : List α)
    (d : κ → List α) (k : κ) :
    List.foldl (fun d2 r => fun k2 => if k2 = key r then d2 k2 ++ [r] else d2 k2) d rows k
      = d k ++ rows.filter (fun r => decide (key r = k)) := by
  induction rows generalizing d with
  | nil => simp
  | cons r rs ih =>
    simp only [List.foldl_cons, ih, List.filter_cons]
    by_cases h : key r = k
    · simp [h.symm]
    · have h2 : ¬ k = key r := fun hk => h hk.symm
      simp [h, h2]

/-- Reading the group dictionary at `k` yields exactly the rows whose key is
`k`, in their original order. -/
theorem groupAppend_apply {κ α : Type} [DecidableEq κ] (key : α → κ) (rows : List α)
    (k : κ) :
    groupAppend key rows k = rows.filter (fun r => decide (key r = k)) := by
  unfold groupAppend
  rw [groupAppend_go]
  simp

theorem dictOverwrite_go {κ α β : Type} [DecidableEq κ] (key : α → κ) (val : α → β)
    (rows : List α) (d : κ → Option β) (k : κ) :
    List.foldl (fun d2 r => fun k2 => if k2 = key r then some (val r) else d2 k2) d rows k
      = ((rows.reverse.find? (fun r => decide (key r = k))).map val).or (d k) := by
  induction rows generalizing d with
  | nil => simp
  | cons r rs ih =>
    simp only [List.foldl_cons, ih, List.reverse_cons, List.find?_append]
    cases hfind : rs.reverse.find? (fun r2 => decide (key r2 = k)) with
    | some r2 => simp [Option.or]
    | none =>
      by_cases h : key r = k
      · rw [List.find?_cons_of_pos _ (by simp [h])]
        simp [h.symm, Option.or]
      · rw [List.find?_cons_of_neg _ (by simp [h])]
        have h2 : ¬ k = key r := fun hk => h hk.symm
        simp [h2, Option.or]

/-- Reading the overwrite dictionary at `k` yields the value of the last row
whose key is `k`, if any. -/
theorem dictOverwrite_apply {κ α β : Type} [DecidableEq κ] (key : α → κ) (val : α → β)
    (rows : List α) (k : κ) :
    dictOverwrite key val rows k
      = (rows.reverse.find? (fun r => decide (key r = k))).map val := by
  unfold dictOverwrite
  rw [dictOverwrite_go]
  cases hfind : rows.reverse.find? (fun r => decide (key r = k)) <;> simp [Option.or]

/-- Pre-filtering the rows to those whose key occurs in `ks` does not change
the group entry of a key that is itself in `ks`. -/
theorem groupAppend_filter_mem {κ α : Type} [DecidableEq κ] (key : α → κ)
    (rows : List α) (ks : List κ) (k : κ) (hk : k ∈ ks) :
    groupAppend key (rows.filter (fun r => decide (key r ∈ ks))) k
      = rows.filter (fun r => decide (key r = k)) := by
  rw [groupAppend_apply, List.filter_filter]
  apply List.filter_congr
  intro r _
  by_cases h : key r = k
  · simp [h, hk]
  · simp [h]

theorem find?_congr_mem {α : Type} {p q : α → Bool} {l : List α}
    (h : ∀ a ∈ l, p a = q a) : l.find? p = l.find? q := by
  induction l with
  | nil => rfl
  | cons a as ih =>
    have ha := h a (List.mem_cons_self a as)
    by_cases hp : p a = true
    · rw [List.find?_cons_of_pos _ hp, List.find?_cons_of_pos _ (ha ▸ hp)]
    · rw [List.find?_cons_of_neg _ hp, List.find?_cons_of_neg _ (ha ▸ hp)]
      exact ih (fun a2 h2 => h a2 (List.mem_cons_of_mem _ h2))

/-- Pre-filtering the rows to those whose key occurs in `ks` does not change
the overwrite-dictionary entry of a key that is itself in `ks`. -/
theorem dictOverwrite_filter_mem {κ α β : Type} [DecidableEq κ] (key : α → κ) (val : α → β)
    (rows : List α) (ks : List κ) (k : κ) (hk : k ∈ ks) :
    dictOverwrite key val (rows.filter (fun r => decide (key r ∈ ks))) k
      = dictOverwrite key val rows k := by
  rw [dictOverwrite_apply, dictOverwrite_apply, ← List.filter_reverse, List.find?_filter]
  congr 1
  apply find?_congr_mem
  intro r _
  by_cases h : key r = k
  · simp [h, hk]
  · simp [h]

/-! ## Django data model shared by the ariadne, graphene and strawberry variants -/

namespace Dj

/-- Row of the Django `auth.User` table, restricted to the fields the schemas
read: `id`, `username`, `email`.  `email` is an `Option` so that both a SQL
NULL and an empty string can be represented. -/
structure User where
  id : Nat
  username : String
  email : Option String
deriving DecidableEq, Repr

/-- Row of the Django `myapp.Review` model: foreign keys to a business and a
user, a rating and a comment.  The author row is embedded, mirroring the
`select_related("user")` eager join the batch functions perform. -/
structure Review where
  id : Nat
  business_id : Nat
  user : User
  rating : Int
  comment : String
deriving DecidableEq, Repr

end Dj

/-! ## src/ariadne/main/schema.py -/

namespace Ariadne

/-- Embeds `resolve_user_email` (src/ariadne/main/schema.py, line 58):
`return user.email or ""`.  Python `or` yields the right operand when the
left operand is falsy, i.e. when the stored email is `None` or the empty
string. -/
def resolve_user_email (user : Dj.User) : String :=
  match user.email with
  | none => ""
  | some s => if s = "" then "" else s

/-- Embeds `get_reviews_for_businesses` (src/ariadne/main/schema.py,
lines 119-133).  `db` is the review table in backend return order;
`Review.objects.filter(business_id__in=business_ids)` keeps the rows whose
business id occurs in the key list, the loop files each row into a
`defaultdict(list)` keyed by `business_id`, and the final comprehension reads
`reviews_by_business_id.get(business_id, [])` for each key.  (The
intermediate `dict(...)` conversion is observationally void because the
subsequent `.get` supplies the default `[]`.) -/
def get_reviews_for_businesses (db : List Dj.Review) (business_ids : List Nat) :
    List (List Dj.Review) :=
  let reviews_by_business_id :=
    groupAppend (fun r => r.business_id)
      (db.filter (fun r => decide (r.business_id ∈ business_ids)))
  business_ids.map (fun business_id => reviews_by_business_id business_id)

/-- Embeds `get_authors_for_reviews` (src/ariadne/main/schema.py,
lines 136-148): rows with `id__in=review_ids` fill a plain dict
`authors_by_review_id[review.id] = review.user`, read back with
`.get(review_id)`, whose default is `None`. -/
def get_authors_for_reviews (db : List Dj.Review) (review_ids : List Nat) :
    List (Option Dj.User) :=
  let authors_by_review_id :=
    dictOverwrite (fun r => r.id) (fun r => r.user)
      (db.filter (fun r => decide (r.id ∈ review_ids)))
  review_ids.map (fun review_id => authors_by_review_id review_id)

end Ariadne

/-! ## src/graphene/main/schema.py -/

namespace Graphene

/-- Embeds `review_author_data_loader` (src/graphene/main/schema.py,
lines 26-36): rows with `id__in=keys` fill the comprehension dict
`\x7br.id: r.user for r in reviews\x7d`, read back with `.get(pk)`. -/
def review_author_data_loader (db : List Dj.Review) (keys : List Nat) :
    List (Option Dj.User) :=
  let review_author_by_review_id :=
    dictOverwrite (fun r => r.id) (fun r => r.user)
      (db.filter (fun r => decide (r.id ∈ keys)))
  keys.map (fun pk => review_author_by_review_id pk)

/-- Embeds `business_review_data_loader` (src/graphene/main/schema.py,
lines 39-53): rows with `business_id__in=keys` fill a `defaultdict(list)`
keyed by `business_id`, read back with `.get(pk, [])`. -/
def business_review_data_loader (db : List Dj.Review) (keys : List Nat) :
    List (List Dj.Review) :=
  let review_by_business_id :=
    groupAppend (fun r => r.business_id)
      (db.filter (fun r => decide (r.business_id ∈ keys)))
  keys.map (fun pk => review_by_business_id pk)

end Graphene

/-! ## src/strawberry/main/schema.py -/

namespace Strawberry

/-- Embeds `dataloader_business_reviews` (src/strawberry/main/schema.py,
lines 40-54), identical in shape to the graphene business loader. -/
def dataloader_business_reviews (db : List Dj.Review) (keys : List Nat) :
    List (List Dj.Review) :=
  let review_by_business_id :=
    groupAppend (fun r => r.business_id)
      (db.filter (fun r => decide (r.business_id ∈ keys)))
  keys.map (fun pk => review_by_business_id pk)

/-- Embeds `dataloader_review_author` (src/strawberry/main/schema.py,
lines 57-69): rows with `id__in=keys` fill `author_by_review_id[r.id] = r.user`,
read back with `.get(key)`. -/
def dataloader_review_author (db : List Dj.Review) (keys : List Nat) :
    List (Option Dj.User) :=
  let author_by_review_id :=
    dictOverwrite (fun r => r.id) (fun r => r.user)
      (db.filter (fun r => decide (r.id ∈ keys)))
  keys.map (fun key => author_by_review_id key)

end Strawberry

/-! ## src/graphdb: Neo4j service layer and strawberry schema -/

namespace Graphdb

/-- Neo4j node, restricted to the property keys the code reads
(`externalID`, `name`, `description` on Business nodes; `externalID`,
`name`, `email` on User nodes).  A single node type carries all four
properties; each `from_node` constructor reads only its own three. -/
structure N4jNode where
  externalID : String
  name : String
  description : String
  email : String
deriving DecidableEq, Repr

/-- Neo4j `REVIEWED` relationship from a User node to a Business node, with
its element id and its `rating` / `comment` properties, plus the start and
end nodes the driver attaches to it. -/
structure N4jRelationship where
  element_id : String
  rating : Int
  comment : String
  start_node : N4jNode
  end_node : N4jNode
deriving DecidableEq, Repr

/-- Embeds the `Business` dataclass (src/graphdb/myapp/services/neo4j.py,
lines 89-102). -/
structure Business where
  id : String
  name : String
  description : String
deriving DecidableEq, Repr

/-- Embeds `Business.from_node`: reads `externalID`, `name`, `description`
from the node. -/
def Business.from_node (node : N4jNode) : Business :=
  { id := node.externalID, name := node.name, description := node.description }

/-- Embeds the `User` dataclass (src/graphdb/myapp/services/neo4j.py,
lines 105-118). -/
structure User where
  id : String
  name : String
  email : String
deriving DecidableEq, Repr

/-- Embeds `User.from_node`: reads `externalID`, `name`, `email` from the
node. -/
def User.from_node (node : N4jNode) : User :=
  { id := node.externalID, name := node.name, email := node.email }

/-- Embeds the `Review` dataclass (src/graphdb/myapp/services/neo4j.py,
lines 121-142). -/
structure Review where
  id : String
  rating : Int
  comment : String
  author : User
  business : Business
deriving DecidableEq, Repr

/-- Embeds `Review.from_relationship` (src/graphdb/myapp/services/neo4j.py,
lines 129-142): every field is derived from the relationship itself —
`element_id`, the `rating` and `comment` properties, and the start/end nodes
that the driver delivered with the relationship. -/
def Review.from_relationship (relationship : N4jRelationship) : Review :=
  { id := relationship.element_id
    rating := relationship.rating
    comment := relationship.comment
    author := User.from_node relationship.start_node
    business := Business.from_node relationship.end_node }

/-- State of a Neo4j database reachable through one driver/service instance:
the Business nodes and the `REVIEWED` relationships, each in the order the
backend returns them.  `Neo4jService` methods run queries against exactly
this state. -/
structure Neo4jService where
  businesses : List N4jNode
  relationships : List N4jRelationship
deriving DecidableEq, Repr

/-- Embeds the `Neo4jDAO` object: `self.service` is the service chosen at
construction time and is the only backend handle its operations use. -/
structure Neo4jDAO where
  service : Neo4jService
deriving DecidableEq, Repr

/-- Embeds `Neo4jDAO.__init__(self, service=None)`
(src/graphdb/myapp/services/neo4j.py, lines 164-165):
`self.service = service or NEO4JSERVICE`.  The ambient global
`NEO4JSERVICE` is passed explicitly, since the embedding has no mutable
process state; a service object is never falsy, so `or` picks the argument
exactly when one was given. -/
def Neo4jDAO.init (service : Option Neo4jService) (NEO4JSERVICE : Neo4jService) : Neo4jDAO :=
  { service := service.getD NEO4JSERVICE }

/-- Embeds `Neo4jDAO.get_businesses` (src/graphdb/myapp/services/neo4j.py,
lines 267-279): `MATCH (b:Business) RETURN b`, each record mapped through
`Business.from_node`. -/
def Neo4jDAO.get_businesses (dao : Neo4jDAO) : List Business :=
  dao.service.businesses.map Business.from_node

/-- Embeds `Neo4jDAO.get_reviews_of_businesses`
(src/graphdb/myapp/services/neo4j.py, lines 281-302):
`MATCH (b:Business)<-[r:REVIEWED]-(u:User) WHERE b.externalID in $ids
RETURN b, r, u`, each relationship mapped through `Review.from_relationship`
in backend return order. -/
def Neo4jDAO.get_reviews_of_businesses (dao : Neo4jDAO) (business_ids : List String) :
    List Review :=
  (dao.service.relationships.filter
      (fun r => decide (r.end_node.externalID ∈ business_ids))).map Review.from_relationship

/-- Embeds `dataloader_business_reviews` (src/graphdb/main/schema.py,
lines 54-69): `dao = Neo4jDAO()` — constructed with NO service argument, so
the DAO falls back to the ambient global `NEO4JSERVICE` (passed here as an
explicit parameter standing for that process-global) — then
`dao.get_reviews_of_businesses(keys)` fills a `defaultdict(list)` keyed by
`r.business.id`, read back with `.get(pk, [])`. -/
def dataloader_business_reviews (NEO4JSERVICE : Neo4jService) (keys : List String) :
    List (List Review) :=
  let dao := Neo4jDAO.init none NEO4JSERVICE
  let reviews := dao.get_reviews_of_businesses keys
  let review_by_business_id := groupAppend (fun r => r.business.id) reviews
  keys.map (fun pk => review_by_business_id pk)

/-- Modelled from the spec: the variant of the graphdb batch function that
§9 of the spec asks for, in which the backend service is an injected
dependency of the batch function ("represent it as an injected dependency
passed to the batch function rather than ambient global state").  It is the
source body with `Neo4jDAO()` replaced by `Neo4jDAO(service)` for an
injected `service`; used only to compare the source against the spec. -/
def dataloader_business_reviews_injected (service : Neo4jService) (keys : List String) :
    List (List Review) :=
  let dao := Neo4jDAO.mk service
  let reviews := dao.get_reviews_of_businesses keys
  let review_by_business_id := groupAppend (fun r => r.business.id) reviews
  keys.map (fun pk => review_by_business_id pk)

end Graphdb

/-! ## Graphene data-loader middleware (src/graphene/main/schema.py, lines 89-102) -/

namespace Graphene

/-- The graphene variant runs with dataloaders enabled
(src/graphene/main/schema.py, line 12). -/
def USE_DATALOADERS : Bool := true

/-- Identifier of the Python batch function a `SyncDataLoader` instance was
constructed around. -/
inductive BatchFn
  | business_review_loader
  | review_author_loader
deriving DecidableEq, Repr

/-- A `SyncDataLoader` instance, identified by the batch function passed to
its constructor.  The library class itself lives in the external
`graphql_sync_dataloaders` package; for the middleware claim only the
identity of the wrapped batch function matters. -/
structure SyncLoaderInst where
  batch_fn : BatchFn
deriving DecidableEq, Repr

/-- The part of the per-request `info.context` object the middleware touches:
`data_loaders` is `none` when the attribute is absent
(`not hasattr(info.context, "data_loaders")`) and `some` of the installed
name-to-loader dict once it has been set. -/
structure Context where
  data_loaders : Option (List (String × SyncLoaderInst))
deriving DecidableEq, Repr

/-- Embeds `data_loader_middleware` (src/graphene/main/schema.py,
lines 89-102) as its action on the request context: when dataloaders are
enabled and the context has no `data_loaders` attribute yet, install the
dict with the `business_review` and `review_author` loaders; otherwise leave
the context untouched.  (The call to `next(root, info, **args)` resolves the
field and is outside the context mutation modelled here.) -/
def data_loader_middleware (ctx : Context) : Context :=
  if USE_DATALOADERS then
    match ctx.data_loaders with
    | none =>
        { data_loaders := some
            [("business_review", { batch_fn := BatchFn.business_review_loader }),
             ("review_author", { batch_fn := BatchFn.review_author_loader })] }
    | some _ => ctx
  else ctx

end Graphene

/-! ## The SyncDataLoader key-dedup contract, modelled from the spec -/

namespace SpecLoader

/-- Modelled from the spec: the repository plugs its batch functions into
`SyncDataLoader` from the external `graphql_sync_dataloaders` package, whose
source is not part of this repository.  Spec sections 4.1 and 8 describe the
outgoing batch: within one accumulation wave, "key dedup uses insertion
order (first occurrence position determines where in the outgoing batch the
key's slot lives); all repeats map to that same slot's eventual result
without adding a new slot".  `dedupGo seen loads` drops a key already seen
and otherwise keeps it, remembering it as seen. -/
def dedupGo {κ : Type} [DecidableEq κ] (seen : List κ) : List κ → List κ
  | [] => []
  | k :: ks => if k ∈ seen then dedupGo seen ks else k :: dedupGo (k :: seen) ks

/-- Modelled from the spec: the ordered, deduplicated key sequence the
loader hands to the batch function for a wave that accumulated the `load`
calls `loads`, in order. -/
def batchKeys {κ : Type} [DecidableEq κ] (loads : List κ) : List κ :=
  dedupGo [] loads

theorem dedupGo_mem {κ : Type} [DecidableEq κ] (seen : List κ) (l : List κ) (k : κ) :
    k ∈ dedupGo seen l ↔ k ∈ l ∧ k ∉ seen := by
  induction l generalizing seen with
  | nil => simp [dedupGo]
  | cons a as ih =>
    by_cases ha : a ∈ seen
    · simp only [dedupGo, if_pos ha, ih, List.mem_cons]
      constructor
      · rintro ⟨hk, hs⟩
        exact ⟨Or.inr hk, hs⟩
      · rintro ⟨hk, hs⟩
        rcases hk with rfl | hk
        · exact absurd ha hs
        · exact ⟨hk, hs⟩
    · simp only [dedupGo, if_neg ha, List.mem_cons, ih]
      constructor
      · rintro (rfl | ⟨hk, hs⟩)
        · exact ⟨Or.inl rfl, ha⟩
        · exact ⟨Or.inr hk, fun h2 => hs (Or.inr h2)⟩
      · rintro ⟨hk, hs⟩
        rcases hk with rfl | hk
        · exact Or.inl rfl
        · by_cases hka : k = a
          · exact Or.inl hka
          · exact Or.inr ⟨hk, fun h2 => h2.elim hka hs⟩

theorem dedupGo_nodup {κ : Type} [DecidableEq κ] (seen : List κ) (l : List κ) :
    (dedupGo seen l).Nodup := by
  induction l generalizing seen with
  | nil => simp [dedupGo]
  | cons a as ih =>
    by_cases ha : a ∈ seen
    · simpa [dedupGo, if_pos ha] using ih seen
    · simp only [dedupGo, if_neg ha]
      refine List.nodup_cons.mpr ⟨?_, ih (a :: seen)⟩
      intro hmem
      exact ((dedupGo_mem (a :: seen) as a).mp hmem).2 (List.mem_cons_self a seen)

theorem dedupGo_pairwise {κ : Type} [DecidableEq κ] (seen : List κ) (l : List κ) :
    (dedupGo seen l).Pairwise (fun a b => l.indexOf a < l.indexOf b) := by
  induction l generalizing seen with
  | nil => simp [dedupGo]
  | cons a as ih =>
    by_cases ha : a ∈ seen
    · simp only [dedupGo, if_pos ha]
      refine (ih seen).imp_of_mem ?_
      intro x y hx hy hlt
      have hxa : x ≠ a := fun h => ((dedupGo_mem seen as x).mp hx).2 (h ▸ ha)
      have hya : y ≠ a := fun h => ((dedupGo_mem seen as y).mp hy).2 (h ▸ ha)
      rw [List.indexOf_cons_ne _ (Ne.symm hxa), List.indexOf_cons_ne _ (Ne.symm hya)]
      exact Nat.succ_lt_succ hlt
    · simp only [dedupGo, if_neg ha]
      refine List.pairwise_cons.mpr ⟨?_, ?_⟩
      · intro y hy
        have hym := (dedupGo_mem (a :: seen) as y).mp hy
        have hya : y ≠ a := fun h => hym.2 (h ▸ List.mem_cons_self a seen)
        rw [List.indexOf_cons_self, List.indexOf_cons_ne _ (Ne.symm hya)]
        exact Nat.succ_pos _
      · refine (ih (a :: seen)).imp_of_mem ?_
        intro x y hx hy hlt
        have hxa : x ≠ a :=
          fun h => ((dedupGo_mem (a :: seen) as x).mp hx).2 (h ▸ List.mem_cons_self a seen)
        have hya : y ≠ a :=
          fun h => ((dedupGo_mem (a :: seen) as y).mp hy).2 (h ▸ List.mem_cons_self a seen)
        rw [List.indexOf_cons_ne _ (Ne.symm hxa), List.indexOf_cons_ne _ (Ne.symm hya)]
        exact Nat.succ_lt_succ hlt

theorem dedupGo_append_mem {κ : Type} [DecidableEq κ] (seen : List κ) (l : List κ)
    (k : κ) (hk : k ∈ l ∨ k ∈ seen) :
    dedupGo seen (l ++ [k]) = dedupGo seen l := by
  induction l generalizing seen with
  | nil =>
    rcases hk with h | h
    · exact absurd h (List.not_mem_nil k)
    · simp [dedupGo, if_pos h]
  | cons a as ih =>
    by_cases ha : a ∈ seen
    · simp only [List.cons_append, dedupGo, if_pos ha]
      apply ih
      rcases hk with h | h
      · rcases List.mem_cons.mp h with rfl | h2
        · exact Or.inr ha
        · exact Or.inl h2
      · exact Or.inr h
    · simp only [List.cons_append, dedupGo, if_neg ha]
      congr 1
      apply ih
      rcases hk with h | h
      · rcases List.mem_cons.mp h with rfl | h2
        · exact Or.inr (List.mem_cons_self _ _)
        · exact Or.inl h2
      · exact Or.inr (List.mem_cons_of_mem a h)

end SpecLoader

/-! ## Statement-level embeddings that also return the final contents of the
caller's key list.  Each batch function body only ever reads its key
argument — in the ORM filter, and in the final comprehension — so the list
the caller passed in is returned unchanged alongside the result; the
`..._state` definitions thread it through the statements explicitly so that
this frame property can be stated. -/

namespace Ariadne

/-- Embeds `get_reviews_for_businesses` together with the post-state of the
caller's `business_ids` list. -/
def get_reviews_for_businesses_state (db : List Dj.Review) (business_ids : List Nat) :
    List (List Dj.Review) × List Nat :=
  let step1 := (db.filter (fun r => decide (r.business_id ∈ business_ids)), business_ids)
  let reviews_by_business_id := groupAppend (fun r => r.business_id) step1.1
  (step1.2.map (fun business_id => reviews_by_business_id business_id), step1.2)

/-- Embeds `get_authors_for_reviews` together with the post-state of the
caller's `review_ids` list. -/
def get_authors_for_reviews_state (db : List Dj.Review) (review_ids : List Nat) :
    List (Option Dj.User) × List Nat :=
  let step1 := (db.filter (fun r => decide (r.id ∈ review_ids)), review_ids)
  let authors_by_review_id := dictOverwrite (fun r => r.id) (fun r => r.user) step1.1
  (step1.2.map (fun review_id => authors_by_review_id review_id), step1.2)

end Ariadne

namespace Graphene

/-- Embeds `review_author_data_loader` together with the post-state of the
caller's `keys` list. -/
def review_author_data_loader_state (db : List Dj.Review) (keys : List Nat) :
    List (Option Dj.User) × List Nat :=
  let step1 := (db.filter (fun r => decide (r.id ∈ keys)), keys)
  let review_author_by_review_id := dictOverwrite (fun r => r.id) (fun r => r.user) step1.1
  (step1.2.map (fun pk => review_author_by_review_id pk), step1.2)

/-- Embeds `business_review_data_loader` together with the post-state of the
caller's `keys` list. -/
def business_review_data_loader_state (db : List Dj.Review) (keys : List Nat) :
    List (List Dj.Review) × List Nat :=
  let step1 := (db.filter (fun r => decide (r.business_id ∈ keys)), keys)
  let review_by_business_id := groupAppend (fun r => r.business_id) step1.1
  (step1.2.map (fun pk => review_by_business_id pk), step1.2)

end Graphene

namespace Strawberry

/-- Embeds `dataloader_business_reviews` together with the post-state of the
caller's `keys` list. -/
def dataloader_business_reviews_state (db : List Dj.Review) (keys : List Nat) :
    List (List Dj.Review) × List Nat :=
  let step1 := (db.filter (fun r => decide (r.business_id ∈ keys)), keys)
  let review_by_business_id := groupAppend (fun r => r.business_id) step1.1
  (step1.2.map (fun pk => review_by_business_id pk), step1.2)

/-- Embeds `dataloader_review_author` together with the post-state of the
caller's `keys` list. -/
def dataloader_review_author_state (db : List Dj.Review) (keys : List Nat) :
    List (Option Dj.User) × List Nat :=
  let step1 := (db.filter (fun r => decide (r.id ∈ keys)), keys)
  let author_by_review_id := dictOverwrite (fun r => r.id) (fun r => r.user) step1.1
  (step1.2.map (fun key => author_by_review_id key), step1.2)

end Strawberry

namespace Graphdb

/-- Embeds `dataloader_business_reviews` together with the post-state of the
caller's `keys` list. -/
def dataloader_business_reviews_state (NEO4JSERVICE : Neo4jService) (keys : List String) :
    List (List Review) × List String :=
  let dao := Neo4jDAO.init none NEO4JSERVICE
  let step1 := (dao.get_reviews_of_businesses keys, keys)
  let review_by_business_id := groupAppend (fun r => r.business.id) step1.1
  (step1.2.map (fun pk => review_by_business_id pk), step1.2)

end Graphdb

/-! ## Positional behaviour of the two batch-function shapes -/

/-- A batch function of the "group rows by key" shape answers position `i`
with exactly the rows whose key equals the i-th input key, in row order. -/
theorem business_shape_getElem {κ α : Type} [DecidableEq κ] (key : α → κ)
    (rows : List α) (ks : List κ) (i : Nat) (h : i < ks.length) :
    (ks.map (fun pk => groupAppend key (rows.filter (fun r => decide (key r ∈ ks))) pk))[i]?
      = some (rows.filter (fun r => decide (key r = ks[i]))) := by
  rw [List.getElem?_map, List.getElem?_eq_getElem h, Option.map_some',
    groupAppend_filter_mem key rows ks _ (List.getElem_mem h)]

/-- A batch function of the "last row per key" shape answers position `i`
with the value of the last row whose key equals the i-th input key, if any. -/
theorem author_shape_getElem {κ α β : Type} [DecidableEq κ] (key : α → κ) (val : α → β)
    (rows : List α) (ks : List κ) (i : Nat) (h : i < ks.length) :
    (ks.map (fun k => dictOverwrite key val (rows.filter (fun r => decide (key r ∈ ks))) k))[i]?
      = some (dictOverwrite key val rows ks[i]) := by
  rw [List.getElem?_map, List.getElem?_eq_getElem h, Option.map_some',
    dictOverwrite_filter_mem key val rows ks _ (List.getElem_mem h)]

theorem filter_map_comm {α β : Type} (f : α → β) (p : β → Bool) (q : α → Bool)
    (hpq : ∀ a, p (f a) = q a) (l : List α) :
    (l.map f).filter p = (l.filter q).map f := by
  induction l with
  | nil => rfl
  | cons a as ih =>
    simp only [List.map_cons, List.filter_cons, hpq a]
    cases hq : q a <;> simp [ih]

/-- Variant of `business_shape_getElem` for a batch function whose rows are
obtained by mapping a constructor `f` over backend records filtered on a
record-level key `keyA` that agrees with the row-level key `keyB`. -/
theorem business_shape_getElem_mapped {α β κ : Type} [DecidableEq κ] (f : α → β)
    (keyB : β → κ) (keyA : α → κ) (hkey : ∀ a, keyB (f a) = keyA a)
    (rels : List α) (ks : List κ) (i : Nat) (h : i < ks.length) :
    (ks.map (fun pk =>
        groupAppend keyB ((rels.filter (fun a => decide (keyA a ∈ ks))).map f) pk))[i]?
      = some ((rels.map f).filter (fun b => decide (keyB b = ks[i]))) := by
  rw [List.getElem?_map, List.getElem?_eq_getElem h, Option.map_some', groupAppend_apply]
  have hcomm : ∀ (l : List α),
      (l.map f).filter (fun b => decide (keyB b = ks[i]))
        = (l.filter (fun a => decide (keyA a = ks[i]))).map f := by
    intro l
    apply filter_map_comm
    intro a
    simp [hkey a]
  rw [hcomm, hcomm, List.filter_filter]
  congr 1
  congr 1
  apply List.filter_congr
  intro a _
  by_cases heq : keyA a = ks[i]
  · simp [heq, List.getElem_mem h]
  · simp [heq]

/-! ## Per-function positional and length lemmas -/

theorem Ariadne.get_reviews_for_businesses_getElem (db : List Dj.Review)
    (ks : List Nat) (i : Nat) (h : i < ks.length) :
    (get_reviews_for_businesses db ks)[i]?
      = some (db.filter (fun r => decide (r.business_id = ks[i]))) :=
  business_shape_getElem (fun r : Dj.Review => r.business_id) db ks i h

theorem Ariadne.get_reviews_for_businesses_length (db : List Dj.Review) (ks : List Nat) :
    (get_reviews_for_businesses db ks).length = ks.length :=
  List.length_map ks _

theorem Ariadne.get_authors_for_reviews_getElem (db : List Dj.Review)
    (ks : List Nat) (i : Nat) (h : i < ks.length) :
    (get_authors_for_reviews db ks)[i]?
      = some (dictOverwrite (fun r => r.id) (fun r => r.user) db ks[i]) :=
  author_shape_getElem (fun r : Dj.Review => r.id) (fun r : Dj.Review => r.user) db ks i h

theorem Ariadne.get_authors_for_reviews_length (db : List Dj.Review) (ks : List Nat) :
    (get_authors_for_reviews db ks).length = ks.length :=
  List.length_map ks _

theorem Graphene.review_author_data_loader_getElem (db : List Dj.Review)
    (ks : List Nat) (i : Nat) (h : i < ks.length) :
    (review_author_data_loader db ks)[i]?
      = some (dictOverwrite (fun r => r.id) (fun r => r.user) db ks[i]) :=
  author_shape_getElem (fun r : Dj.Review => r.id) (fun r : Dj.Review => r.user) db ks i h

theorem Graphene.review_author_data_loader_length (db : List Dj.Review) (ks : List Nat) :
    (review_author_data_loader db ks).length = ks.length :=
  List.length_map ks _

theorem Graphene.business_review_data_loader_getElem (db : List Dj.Review)
    (ks : List Nat) (i : Nat) (h : i < ks.length) :
    (business_review_data_loader db ks)[i]?
      = some (db.filter (fun r => decide (r.business_id = ks[i]))) :=
  business_shape_getElem (fun r : Dj.Review => r.business_id) db ks i h

theorem Graphene.business_review_data_loader_length (db : List Dj.Review) (ks : List Nat) :
    (business_review_data_loader db ks).length = ks.length :=
  List.length_map ks _

theorem Strawberry.dataloader_business_reviews_getElem (db : List Dj.Review)
    (ks : List Nat) (i : Nat) (h : i < ks.length) :
    (dataloader_business_reviews db ks)[i]?
      = some (db.filter (fun r => decide (r.business_id = ks[i]))) :=
  business_shape_getElem (fun r : Dj.Review => r.business_id) db ks i h

theorem Strawberry.dataloader_business_reviews_length (db : List Dj.Review) (ks : List Nat) :
    (dataloader_business_reviews db ks).length = ks.length :=
  List.length_map ks _

theorem Strawberry.dataloader_review_author_getElem (db : List Dj.Review)
    (ks : List Nat) (i : Nat) (h : i < ks.length) :
    (dataloader_review_author db ks)[i]?
      = some (dictOverwrite (fun r => r.id) (fun r => r.user) db ks[i]) :=
  author_shape_getElem (fun r : Dj.Review => r.id) (fun r : Dj.Review => r.user) db ks i h

theorem Strawberry.dataloader_review_author_length (db : List Dj.Review) (ks : List Nat) :
    (dataloader_review_author db ks).length = ks.length :=
  List.length_map ks _

theorem Graphdb.dataloader_business_reviews_graphdb_getElem (svc : Neo4jService)
    (ks : List String) (i : Nat) (h : i < ks.length) :
    (dataloader_business_reviews svc ks)[i]?
      = some ((svc.relationships.map Review.from_relationship).filter
          (fun r => decide (r.business.id = ks[i]))) :=
  business_shape_getElem_mapped Review.from_relationship (fun r => r.business.id)
    (fun e => e.end_node.externalID) (fun _ => rfl) svc.relationships ks i h

theorem Graphdb.dataloader_business_reviews_graphdb_length (svc : Neo4jService) (ks : List String) :
    (dataloader_business_reviews svc ks).length = ks.length :=
  List.length_map ks _

/-! ## Concrete example data for witness instances -/

/-- Example user row with a non-empty email. -/
def uAda : Dj.User := { id := 5, username := "ada", email := some "ada@example.com" }

/-- Example user row whose stored email is NULL. -/
def uBob : Dj.User := { id := 9, username := "bob", email := none }

/-- Example review of business 10 by `uAda`. -/
def rev1 : Dj.Review := { id := 1, business_id := 10, user := uAda, rating := 5, comment := "great" }

/-- Example review of business 20 by `uBob`. -/
def rev2 : Dj.Review := { id := 2, business_id := 20, user := uBob, rating := 3, comment := "ok" }

/-- Second example review of business 10, by `uBob`. -/
def rev3 : Dj.Review := { id := 3, business_id := 10, user := uBob, rating := 4, comment := "fine" }

/-- Example relational backend state: the review table in return order. -/
def dbEx : List Dj.Review := [rev1, rev2, rev3]

/-- Example Business node in the graph database. -/
def nodeB1 : Graphdb.N4jNode :=
  { externalID := "b1", name := "Cafe", description := "a cafe", email := "" }

/-- Example User node in the graph database. -/
def nodeU5 : Graphdb.N4jNode :=
  { externalID := "u5", name := "Ada", description := "", email := "ada@example.com" }

/-- Example REVIEWED relationship from `nodeU5` to `nodeB1`. -/
def relR1 : Graphdb.N4jRelationship :=
  { element_id := "r1", rating := 5, comment := "great", start_node := nodeU5, end_node := nodeB1 }

/-- Example process-global Neo4j service state holding one review. -/
def svcEx : Graphdb.Neo4jService := { businesses := [nodeB1], relationships := [relR1] }

/-- Example empty fake service, as a test would want to substitute. -/
def svcFake : Graphdb.Neo4jService := { businesses := [], relationships := [] }

/-! ## Claims -/

/-- C7: every `Review` built by `Review.from_relationship` derives all its
fields from the single fetched edge: its author is `User.from_node` of the
relationship's start node, its business is `Business.from_node` of the
relationship's end node, and its id, rating and comment come from the
relationship itself.  `Review.from_relationship` consumes nothing but the
relationship — in particular no database handle — so no secondary lookup
can be issued. -/
theorem C7_review_from_relationship_fields :
    ∀ relationship : Graphdb.N4jRelationship,
      (Graphdb.Review.from_relationship relationship).author
          = Graphdb.User.from_node relationship.start_node
      ∧ (Graphdb.Review.from_relationship relationship).business
          = Graphdb.Business.from_node relationship.end_node
      ∧ (Graphdb.Review.from_relationship relationship).id = relationship.element_id
      ∧ (Graphdb.Review.from_relationship relationship).rating = relationship.rating
      ∧ (Graphdb.Review.from_relationship relationship).comment = relationship.comment :=
  fun _ => ⟨rfl, rfl, rfl, rfl, rfl⟩

/-- C10: the ariadne email resolver never produces a null for the
non-nullable `email` field: `resolve_user_email` returns the user's email
when it is non-empty, and the empty string when the stored email is NULL or
empty. -/
theorem C10_resolve_user_email_never_null (user : Dj.User) :
    ((user.email = none ∨ user.email = some "") → Ariadne.resolve_user_email user = "")
  ∧ (∀ s : String, user.email = some s → s ≠ "" → Ariadne.resolve_user_email user = s) := by
  constructor
  · intro h
    rcases h with h | h <;> simp [Ariadne.resolve_user_email, h]
  · intro s hs hne
    simp [Ariadne.resolve_user_email, hs, hne]

/-- Witness for C10: `uBob` stores no email and resolves to `""`; `uAda`
stores a non-empty email and resolves to it. -/
theorem C10_witness :
    Ariadne.resolve_user_email uBob = ""
  ∧ Ariadne.resolve_user_email uAda = "ada@example.com" :=
  ⟨(C10_resolve_user_email_never_null uBob).1 (Or.inl rfl),
   (C10_resolve_user_email_never_null uAda).2 "ada@example.com" rfl (by decide)⟩

/-- C5: the per-window loader set is constructed exactly once per window:
on a context without the `data_loaders` attribute the graphene middleware
installs the dict with the `business_review` and `review_author` loaders;
on a context that already carries a loader dict it changes nothing, so any
sequence of invocations on one request context is equivalent to the first
invocation alone. -/
theorem C5_middleware_installs_once :
    ((Graphene.data_loader_middleware { data_loaders := none }).data_loaders
        = some
            [("business_review", { batch_fn := Graphene.BatchFn.business_review_loader }),
             ("review_author", { batch_fn := Graphene.BatchFn.review_author_loader })])
  ∧ (∀ m, Graphene.data_loader_middleware { data_loaders := some m }
        = { data_loaders := some m })
  ∧ (∀ n : Nat, Graphene.data_loader_middleware^[n + 1] { data_loaders := none }
        = Graphene.data_loader_middleware { data_loaders := none }) := by
  refine ⟨rfl, fun m => rfl, ?_⟩
  intro n
  induction n with
  | zero => rfl
  | succ n ih => rw [Function.iterate_succ_apply', ih]; rfl

/-- C2: for all sequences of `load(key)` calls issued within one window,
the batch function is invoked with each distinct key at most once (the
outgoing batch is duplicate-free and has exactly the keys that were
loaded), in first-occurrence order (any two batch slots are ordered by the
first occurrence of their keys in the load sequence), and a repeated key
never adds a new slot to the outgoing batch.  The loader itself is the
external `SyncDataLoader`, modelled from the spec as `SpecLoader.batchKeys`. -/
theorem C2_batch_dedup_first_occurrence (loads : List Nat) :
    (SpecLoader.batchKeys loads).Nodup
  ∧ (∀ k, k ∈ SpecLoader.batchKeys loads ↔ k ∈ loads)
  ∧ (SpecLoader.batchKeys loads).Pairwise (fun a b => loads.indexOf a < loads.indexOf b)
  ∧ (∀ k, k ∈ loads → SpecLoader.batchKeys (loads ++ [k]) = SpecLoader.batchKeys loads) := by
  refine ⟨SpecLoader.dedupGo_nodup [] loads, ?_, SpecLoader.dedupGo_pairwise [] loads, ?_⟩
  · intro k
    rw [SpecLoader.batchKeys, SpecLoader.dedupGo_mem]
    simp
  · intro k hk
    exact SpecLoader.dedupGo_append_mem [] loads k (Or.inl hk)

/-- Witness for C2: the spec's own concrete scenario — a window issuing
`load(1)`, `load(2)`, `load(1)` batches exactly `[1, 2]`, and one more
repeated `load(1)` adds no slot. -/
theorem C2_witness :
    SpecLoader.batchKeys [1, 2, 1] = [1, 2]
  ∧ SpecLoader.batchKeys ([1, 2, 1] ++ [1]) = SpecLoader.batchKeys [1, 2, 1] :=
  ⟨by decide, (C2_batch_dedup_first_occurrence [1, 2, 1]).2.2.2 1 (by decide)⟩

/-- C6 counterexample: the claim says the graphdb reviews-by-business batch
function receives its backend as an injected dependency so a fake backend
can be substituted.  In the source (src/graphdb/main/schema.py, line 62) the
batch function constructs `Neo4jDAO()` with no service argument, so its DAO
resolves to the ambient global `NEO4JSERVICE`: with the global holding one
review of business `b1` and an empty fake service a test would substitute,
the batch function keeps answering from the global — its behaviour is not
that of the injected variant run on the fake. -/
theorem C6_counterexample :
    (Graphdb.Neo4jDAO.init none svcEx).service = svcEx
  ∧ svcEx ≠ svcFake
  ∧ Graphdb.dataloader_business_reviews svcEx ["b1"]
      = [[Graphdb.Review.from_relationship relR1]]
  ∧ Graphdb.dataloader_business_reviews_injected svcFake ["b1"] = [[]]
  ∧ [[Graphdb.Review.from_relationship relR1]] ≠ ([[]] : List (List Graphdb.Review)) := by
  refine ⟨rfl, by decide, by decide, by decide, by decide⟩

/-- C6 (amended): `Neo4jDAO` constructed with a service argument uses exactly
that service for every operation (its `service` field is the given service
and both read operations query it), but the graphdb reviews-by-business
batch function constructs `Neo4jDAO()` with no service argument, so its
backend is the ambient global `NEO4JSERVICE`: it behaves exactly like the
injected variant applied to the global, and offers no seam of its own for
substituting a fake backend. -/
theorem C6_dao_service_injection_amended :
    (∀ s NEO4JSERVICE : Graphdb.Neo4jService,
        (Graphdb.Neo4jDAO.init (some s) NEO4JSERVICE).service = s
      ∧ (Graphdb.Neo4jDAO.init (some s) NEO4JSERVICE).get_businesses
          = s.businesses.map Graphdb.Business.from_node
      ∧ ∀ ids, (Graphdb.Neo4jDAO.init (some s) NEO4JSERVICE).get_reviews_of_businesses ids
          = (s.relationships.filter
              (fun r => decide (r.end_node.externalID ∈ ids))).map
              Graphdb.Review.from_relationship)
  ∧ (∀ NEO4JSERVICE : Graphdb.Neo4jService, ∀ keys,
        Graphdb.dataloader_business_reviews NEO4JSERVICE keys
          = Graphdb.dataloader_business_reviews_injected NEO4JSERVICE keys) :=
  ⟨fun _ _ => ⟨rfl, rfl, fun _ => rfl⟩, fun _ _ => rfl⟩

/-- C1: for every list of keys, each batch function — reviews-by-business
and author-by-review, in every variant — returns a result list of exactly
the same length as the input key list, and the value at position `i` is the
result for `keys[i]` alone: position `i` of a batch call agrees with
position 0 of the call on the singleton key list `[keys[i]]`. -/
theorem C1_batch_same_length_same_order :
    (∀ (db : List Dj.Review) (ks : List Nat),
        (Ariadne.get_reviews_for_businesses db ks).length = ks.length
      ∧ ∀ i (h : i < ks.length),
          (Ariadne.get_reviews_for_businesses db ks)[i]?
            = (Ariadne.get_reviews_for_businesses db [ks[i]])[0]?)
  ∧ (∀ (db : List Dj.Review) (ks : List Nat),
        (Ariadne.get_authors_for_reviews db ks).length = ks.length
      ∧ ∀ i (h : i < ks.length),
          (Ariadne.get_authors_for_reviews db ks)[i]?
            = (Ariadne.get_authors_for_reviews db [ks[i]])[0]?)
  ∧ (∀ (db : List Dj.Review) (ks : List Nat),
        (Graphene.review_author_data_loader db ks).length = ks.length
      ∧ ∀ i (h : i < ks.length),
          (Graphene.review_author_data_loader db ks)[i]?
            = (Graphene.review_author_data_loader db [ks[i]])[0]?)
  ∧ (∀ (db : List Dj.Review) (ks : List Nat),
        (Graphene.business_review_data_loader db ks).length = ks.length
      ∧ ∀ i (h : i < ks.length),
          (Graphene.business_review_data_loader db ks)[i]?
            = (Graphene.business_review_data_loader db [ks[i]])[0]?)
  ∧ (∀ (db : List Dj.Review) (ks : List Nat),
        (Strawberry.dataloader_business_reviews db ks).length = ks.length
      ∧ ∀ i (h : i < ks.length),
          (Strawberry.dataloader_business_reviews db ks)[i]?
            = (Strawberry.dataloader_business_reviews db [ks[i]])[0]?)
  ∧ (∀ (db : List Dj.Review) (ks : List Nat),
        (Strawberry.dataloader_review_author db ks).length = ks.length
      ∧ ∀ i (h : i < ks.length),
          (Strawberry.dataloader_review_author db ks)[i]?
            = (Strawberry.dataloader_review_author db [ks[i]])[0]?)
  ∧ (∀ (svc : Graphdb.Neo4jService) (ks : List String),
        (Graphdb.dataloader_business_reviews svc ks).length = ks.length
      ∧ ∀ i (h : i < ks.length),
          (Graphdb.dataloader_business_reviews svc ks)[i]?
            = (Graphdb.dataloader_business_reviews svc [ks[i]])[0]?) := by
  refine ⟨?_, ?_, ?_, ?_, ?_, ?_, ?_⟩
  · refine fun db ks => ⟨Ariadne.get_reviews_for_businesses_length db ks, fun i h => ?_⟩
    rw [Ariadne.get_reviews_for_businesses_getElem db ks i h,
      Ariadne.get_reviews_for_businesses_getElem db [ks[i]] 0 (by simp)]
    simp
  · refine fun db ks => ⟨Ariadne.get_authors_for_reviews_length db ks, fun i h => ?_⟩
    rw [Ariadne.get_authors_for_reviews_getElem db ks i h,
      Ariadne.get_authors_for_reviews_getElem db [ks[i]] 0 (by simp)]
    simp
  · refine fun db ks => ⟨Graphene.review_author_data_loader_length db ks, fun i h => ?_⟩
    rw [Graphene.review_author_data_loader_getElem db ks i h,
      Graphene.review_author_data_loader_getElem db [ks[i]] 0 (by simp)]
    simp
  · refine fun db ks => ⟨Graphene.business_review_data_loader_length db ks, fun i h => ?_⟩
    rw [Graphene.business_review_data_loader_getElem db ks i h,
      Graphene.business_review_data_loader_getElem db [ks[i]] 0 (by simp)]
    simp
  · refine fun db ks => ⟨Strawberry.dataloader_business_reviews_length db ks, fun i h => ?_⟩
    rw [Strawberry.dataloader_business_reviews_getElem db ks i h,
      Strawberry.dataloader_business_reviews_getElem db [ks[i]] 0 (by simp)]
    simp
  · refine fun db ks => ⟨Strawberry.dataloader_review_author_length db ks, fun i h => ?_⟩
    rw [Strawberry.dataloader_review_author_getElem db ks i h,
      Strawberry.dataloader_review_author_getElem db [ks[i]] 0 (by simp)]
    simp
  · refine fun svc ks => ⟨Graphdb.dataloader_business_reviews_graphdb_length svc ks, fun i h => ?_⟩
    rw [Graphdb.dataloader_business_reviews_graphdb_getElem svc ks i h,
      Graphdb.dataloader_business_reviews_graphdb_getElem svc [ks[i]] 0 (by simp)]
    simp

/-- Witness for C1: concrete positional instances for all seven batch
functions, with the in-bounds hypotheses discharged by `decide`. -/
theorem C1_witness :
    (Ariadne.get_reviews_for_businesses dbEx [10, 20, 10])[2]?
        = (Ariadne.get_reviews_for_businesses dbEx [10])[0]?
  ∧ (Ariadne.get_authors_for_reviews dbEx [1, 99])[1]?
        = (Ariadne.get_authors_for_reviews dbEx [99])[0]?
  ∧ (Graphene.review_author_data_loader dbEx [2, 2])[1]?
        = (Graphene.review_author_data_loader dbEx [2])[0]?
  ∧ (Graphene.business_review_data_loader dbEx [10, 20])[0]?
        = (Graphene.business_review_data_loader dbEx [10])[0]?
  ∧ (Strawberry.dataloader_business_reviews dbEx [20, 10])[1]?
        = (Strawberry.dataloader_business_reviews dbEx [10])[0]?
  ∧ (Strawberry.dataloader_review_author dbEx [3, 1])[0]?
        = (Strawberry.dataloader_review_author dbEx [3])[0]?
  ∧ (Graphdb.dataloader_business_reviews svcEx ["b1", "zz"])[1]?
        = (Graphdb.dataloader_business_reviews svcEx ["zz"])[0]? :=
  ⟨(C1_batch_same_length_same_order.1 dbEx [10, 20, 10]).2 2 (by decide),
   (C1_batch_same_length_same_order.2.1 dbEx [1, 99]).2 1 (by decide),
   (C1_batch_same_length_same_order.2.2.1 dbEx [2, 2]).2 1 (by decide),
   (C1_batch_same_length_same_order.2.2.2.1 dbEx [10, 20]).2 0 (by decide),
   (C1_batch_same_length_same_order.2.2.2.2.1 dbEx [20, 10]).2 1 (by decide),
   (C1_batch_same_length_same_order.2.2.2.2.2.1 dbEx [3, 1]).2 0 (by decide),
   (C1_batch_same_length_same_order.2.2.2.2.2.2 svcEx ["b1", "zz"]).2 1 (by decide)⟩

/-- C3: for every key list and backend state, each reviews-by-business batch
function returns at position `i` exactly those reviews whose business id
equals `keys[i]`, in the order the backend returned them. -/
theorem C3_reviews_by_business_positional :
    (∀ (db : List Dj.Review) (ks : List Nat) (i : Nat) (h : i < ks.length),
        (Ariadne.get_reviews_for_businesses db ks)[i]?
          = some (db.filter (fun r => decide (r.business_id = ks[i]))))
  ∧ (∀ (db : List Dj.Review) (ks : List Nat) (i : Nat) (h : i < ks.length),
        (Graphene.business_review_data_loader db ks)[i]?
          = some (db.filter (fun r => decide (r.business_id = ks[i]))))
  ∧ (∀ (db : List Dj.Review) (ks : List Nat) (i : Nat) (h : i < ks.length),
        (Strawberry.dataloader_business_reviews db ks)[i]?
          = some (db.filter (fun r => decide (r.business_id = ks[i]))))
  ∧ (∀ (svc : Graphdb.Neo4jService) (ks : List String) (i : Nat) (h : i < ks.length),
        (Graphdb.dataloader_business_reviews svc ks)[i]?
          = some ((svc.relationships.map Graphdb.Review.from_relationship).filter
              (fun r => decide (r.business.id = ks[i])))) :=
  ⟨Ariadne.get_reviews_for_businesses_getElem,
   Graphene.business_review_data_loader_getElem,
   Strawberry.dataloader_business_reviews_getElem,
   Graphdb.dataloader_business_reviews_graphdb_getElem⟩

/-- Witness for C3: on the concrete backend `dbEx`, business 10 gets
`[rev1, rev3]` — its two reviews in backend order — at its key position,
and on the graph backend business `b1` gets its single review. -/
theorem C3_witness :
    (Ariadne.get_reviews_for_businesses dbEx [20, 10])[1]? = some [rev1, rev3]
  ∧ (Graphene.business_review_data_loader dbEx [20])[0]? = some [rev2]
  ∧ (Strawberry.dataloader_business_reviews dbEx [10])[0]? = some [rev1, rev3]
  ∧ (Graphdb.dataloader_business_reviews svcEx ["b1"])[0]?
      = some [Graphdb.Review.from_relationship relR1] := by
  refine ⟨?_, ?_, ?_, ?_⟩
  · have h := C3_reviews_by_business_positional.1 dbEx [20, 10] 1 (by decide)
    simpa using h
  · have h := C3_reviews_by_business_positional.2.1 dbEx [20] 0 (by decide)
    simpa using h
  · have h := C3_reviews_by_business_positional.2.2.1 dbEx [10] 0 (by decide)
    simpa using h
  · have h := C3_reviews_by_business_positional.2.2.2 svcEx ["b1"] 0 (by decide)
    simpa using h

/-- C4: a key with no backend match is delivered as a normal "no value"
result, never an exception: every author-by-review batch function answers
`None` at each position whose review id matches no review, and every
reviews-by-business batch function answers the empty list at each position
whose business has no reviews.  (The embedding is total, so no exceptional
outcome exists on these paths.) -/
theorem C4_missing_key_is_plain_absence :
    (∀ (db : List Dj.Review) (ks : List Nat) (i : Nat) (h : i < ks.length),
        (∀ r ∈ db, r.id ≠ ks[i]) → (Ariadne.get_authors_for_reviews db ks)[i]? = some none)
  ∧ (∀ (db : List Dj.Review) (ks : List Nat) (i : Nat) (h : i < ks.length),
        (∀ r ∈ db, r.id ≠ ks[i]) → (Graphene.review_author_data_loader db ks)[i]? = some none)
  ∧ (∀ (db : List Dj.Review) (ks : List Nat) (i : Nat) (h : i < ks.length),
        (∀ r ∈ db, r.id ≠ ks[i]) → (Strawberry.dataloader_review_author db ks)[i]? = some none)
  ∧ (∀ (db : List Dj.Review) (ks : List Nat) (i : Nat) (h : i < ks.length),
        (∀ r ∈ db, r.business_id ≠ ks[i])
          → (Ariadne.get_reviews_for_businesses db ks)[i]? = some [])
  ∧ (∀ (db : List Dj.Review) (ks : List Nat) (i : Nat) (h : i < ks.length),
        (∀ r ∈ db, r.business_id ≠ ks[i])
          → (Graphene.business_review_data_loader db ks)[i]? = some [])
  ∧ (∀ (db : List Dj.Review) (ks : List Nat) (i : Nat) (h : i < ks.length),
        (∀ r ∈ db, r.business_id ≠ ks[i])
          → (Strawberry.dataloader_business_reviews db ks)[i]? = some [])
  ∧ (∀ (svc : Graphdb.Neo4jService) (ks : List String) (i : Nat) (h : i < ks.length),
        (∀ r ∈ svc.relationships.map Graphdb.Review.from_relationship,
            r.business.id ≠ ks[i])
          → (Graphdb.dataloader_business_reviews svc ks)[i]? = some []) := by
  have hauthor : ∀ (db : List Dj.Review) (k : Nat), (∀ r ∈ db, r.id ≠ k)
      → dictOverwrite (fun r : Dj.Review => r.id) (fun r : Dj.Review => r.user) db k = none := by
    intro db k hnone
    rw [dictOverwrite_apply]
    have hfind : db.reverse.find? (fun r => decide (r.id = k)) = none := by
      rw [List.find?_eq_none]
      intro x hx
      simp only [decide_eq_true_eq]
      exact hnone x (List.mem_reverse.mp hx)
    rw [hfind]
    rfl
  have hbiz : ∀ (db : List Dj.Review) (k : Nat), (∀ r ∈ db, r.business_id ≠ k)
      → db.filter (fun r => decide (r.business_id = k)) = [] := by
    intro db k hnone
    rw [List.filter_eq_nil_iff]
    intro x hx
    simp only [decide_eq_true_eq]
    exact hnone x hx
  refine ⟨?_, ?_, ?_, ?_, ?_, ?_, ?_⟩
  · intro db ks i h hnone
    rw [Ariadne.get_authors_for_reviews_getElem db ks i h, hauthor db _ hnone]
  · intro db ks i h hnone
    rw [Graphene.review_author_data_loader_getElem db ks i h, hauthor db _ hnone]
  · intro db ks i h hnone
    rw [Strawberry.dataloader_review_author_getElem db ks i h, hauthor db _ hnone]
  · intro db ks i h hnone
    rw [Ariadne.get_reviews_for_businesses_getElem db ks i h, hbiz db _ hnone]
  · intro db ks i h hnone
    rw [Graphene.business_review_data_loader_getElem db ks i h, hbiz db _ hnone]
  · intro db ks i h hnone
    rw [Strawberry.dataloader_business_reviews_getElem db ks i h, hbiz db _ hnone]
  · intro svc ks i h hnone
    rw [Graphdb.dataloader_business_reviews_graphdb_getElem svc ks i h]
    congr 1
    rw [List.filter_eq_nil_iff]
    intro x hx
    simp only [decide_eq_true_eq]
    exact hnone x hx

/-- Witness for C4: key 99 (resp. `"zz"`) matches nothing in the concrete
backends, so every author function answers `None` there and every business
function answers the empty list. -/
theorem C4_witness :
    (Ariadne.get_authors_for_reviews dbEx [99])[0]? = some none
  ∧ (Graphene.review_author_data_loader dbEx [1, 99])[1]? = some none
  ∧ (Strawberry.dataloader_review_author dbEx [99])[0]? = some none
  ∧ (Ariadne.get_reviews_for_businesses dbEx [99])[0]? = some []
  ∧ (Graphene.business_review_data_loader dbEx [99, 10])[0]? = some []
  ∧ (Strawberry.dataloader_business_reviews dbEx [99])[0]? = some []
  ∧ (Graphdb.dataloader_business_reviews svcEx ["zz"])[0]? = some [] :=
  ⟨C4_missing_key_is_plain_absence.1 dbEx [99] 0 (by decide) (by decide),
   C4_missing_key_is_plain_absence.2.1 dbEx [1, 99] 1 (by decide) (by decide),
   C4_missing_key_is_plain_absence.2.2.1 dbEx [99] 0 (by decide) (by decide),
   C4_missing_key_is_plain_absence.2.2.2.1 dbEx [99] 0 (by decide) (by decide),
   C4_missing_key_is_plain_absence.2.2.2.2.1 dbEx [99, 10] 0 (by decide) (by decide),
   C4_missing_key_is_plain_absence.2.2.2.2.2.1 dbEx [99] 0 (by decide) (by decide),
   C4_missing_key_is_plain_absence.2.2.2.2.2.2 svcEx ["zz"] 0 (by decide) (by decide)⟩

/-- C8: each batch function leaves its input keys list unchanged — the
statement-level embeddings that thread the caller's key list through every
statement of each body return it exactly as it was passed in, while
computing the same result as the plain embedding. -/
theorem C8_batch_functions_preserve_keys :
    (∀ (db : List Dj.Review) (ks : List Nat),
        (Ariadne.get_reviews_for_businesses_state db ks).2 = ks
      ∧ (Ariadne.get_reviews_for_businesses_state db ks).1
          = Ariadne.get_reviews_for_businesses db ks)
  ∧ (∀ (db : List Dj.Review) (ks : List Nat),
        (Ariadne.get_authors_for_reviews_state db ks).2 = ks
      ∧ (Ariadne.get_authors_for_reviews_state db ks).1
          = Ariadne.get_authors_for_reviews db ks)
  ∧ (∀ (db : List Dj.Review) (ks : List Nat),
        (Graphene.review_author_data_loader_state db ks).2 = ks
      ∧ (Graphene.review_author_data_loader_state db ks).1
          = Graphene.review_author_data_loader db ks)
  ∧ (∀ (db : List Dj.Review) (ks : List Nat),
        (Graphene.business_review_data_loader_state db ks).2 = ks
      ∧ (Graphene.business_review_data_loader_state db ks).1
          = Graphene.business_review_data_loader db ks)
  ∧ (∀ (db : List Dj.Review) (ks : List Nat),
        (Strawberry.dataloader_business_reviews_state db ks).2 = ks
      ∧ (Strawberry.dataloader_business_reviews_state db ks).1
          = Strawberry.dataloader_business_reviews db ks)
  ∧ (∀ (db : List Dj.Review) (ks : List Nat),
        (Strawberry.dataloader_review_author_state db ks).2 = ks
      ∧ (Strawberry.dataloader_review_author_state db ks).1
          = Strawberry.dataloader_review_author db ks)
  ∧ (∀ (svc : Graphdb.Neo4jService) (ks : List String),
        (Graphdb.dataloader_business_reviews_state svc ks).2 = ks
      ∧ (Graphdb.dataloader_business_reviews_state svc ks).1
          = Graphdb.dataloader_business_reviews svc ks) :=
  ⟨fun _ _ => ⟨rfl, rfl⟩, fun _ _ => ⟨rfl, rfl⟩, fun _ _ => ⟨rfl, rfl⟩,
   fun _ _ => ⟨rfl, rfl⟩, fun _ _ => ⟨rfl, rfl⟩, fun _ _ => ⟨rfl, rfl⟩,
   fun _ _ => ⟨rfl, rfl⟩⟩

/-- C9: every batch function tolerates duplicate keys: whenever the same key
occurs at positions `i` and `j` of the input list, the returned list holds
equal values at positions `i` and `j`. -/
theorem C9_duplicate_keys_equal_results :
    (∀ (db : List Dj.Review) (ks : List Nat) (i j : Nat)
        (hi : i < ks.length) (hj : j < ks.length), ks[i] = ks[j]
        → (Ariadne.get_reviews_for_businesses db ks)[i]?
            = (Ariadne.get_reviews_for_businesses db ks)[j]?)
  ∧ (∀ (db : List Dj.Review) (ks : List Nat) (i j : Nat)
        (hi : i < ks.length) (hj : j < ks.length), ks[i] = ks[j]
        → (Ariadne.get_authors_for_reviews db ks)[i]?
            = (Ariadne.get_authors_for_reviews db ks)[j]?)
  ∧ (∀ (db : List Dj.Review) (ks : List Nat) (i j : Nat)
        (hi : i < ks.length) (hj : j < ks.length), ks[i] = ks[j]
        → (Graphene.review_author_data_loader db ks)[i]?
            = (Graphene.review_author_data_loader db ks)[j]?)
  ∧ (∀ (db : List Dj.Review) (ks : List Nat) (i j : Nat)
        (hi : i < ks.length) (hj : j < ks.length), ks[i] = ks[j]
        → (Graphene.business_review_data_loader db ks)[i]?
            = (Graphene.business_review_data_loader db ks)[j]?)
  ∧ (∀ (db : List Dj.Review) (ks : List Nat) (i j : Nat)
        (hi : i < ks.length) (hj : j < ks.length), ks[i] = ks[j]
        → (Strawberry.dataloader_business_reviews db ks)[i]?
            = (Strawberry.dataloader_business_reviews db ks)[j]?)
  ∧ (∀ (db : List Dj.Review) (ks : List Nat) (i j : Nat)
        (hi : i < ks.length) (hj : j < ks.length), ks[i] = ks[j]
        → (Strawberry.dataloader_review_author db ks)[i]?
            = (Strawberry.dataloader_review_author db ks)[j]?)
  ∧ (∀ (svc : Graphdb.Neo4jService) (ks : List String) (i j : Nat)
        (hi : i < ks.length) (hj : j < ks.length), ks[i] = ks[j]
        → (Graphdb.dataloader_business_reviews svc ks)[i]?
            = (Graphdb.dataloader_business_reviews svc ks)[j]?) := by
  refine ⟨?_, ?_, ?_, ?_, ?_, ?_, ?_⟩
  · intro db ks i j hi hj hk
    rw [Ariadne.get_reviews_for_businesses_getElem db ks i hi,
      Ariadne.get_reviews_for_businesses_getElem db ks j hj, hk]
  · intro db ks i j hi hj hk
    rw [Ariadne.get_authors_for_reviews_getElem db ks i hi,
      Ariadne.get_authors_for_reviews_getElem db ks j hj, hk]
  · intro db ks i j hi hj hk
    rw [Graphene.review_author_data_loader_getElem db ks i hi,
      Graphene.review_author_data_loader_getElem db ks j hj, hk]
  · intro db ks i j hi hj hk
    rw [Graphene.business_review_data_loader_getElem db ks i hi,
      Graphene.business_review_data_loader_getElem db ks j hj, hk]
  · intro db ks i j hi hj hk
    rw [Strawberry.dataloader_business_reviews_getElem db ks i hi,
      Strawberry.dataloader_business_reviews_getElem db ks j hj, hk]
  · intro db ks i j hi hj hk
    rw [Strawberry.dataloader_review_author_getElem db ks i hi,
      Strawberry.dataloader_review_author_getElem db ks j hj, hk]
  · intro svc ks i j hi hj hk
    rw [Graphdb.dataloader_business_reviews_graphdb_getElem svc ks i hi,
      Graphdb.dataloader_business_reviews_graphdb_getElem svc ks j hj, hk]

/-- Witness for C9: key lists with an actual repeat, for all seven batch
functions, hypotheses discharged by `decide`. -/
theorem C9_witness :
    (Ariadne.get_reviews_for_businesses dbEx [10, 20, 10])[0]?
        = (Ariadne.get_reviews_for_businesses dbEx [10, 20, 10])[2]?
  ∧ (Ariadne.get_authors_for_reviews dbEx [1, 1])[0]?
        = (Ariadne.get_authors_for_reviews dbEx [1, 1])[1]?
  ∧ (Graphene.review_author_data_loader dbEx [2, 3, 2])[0]?
        = (Graphene.review_author_data_loader dbEx [2, 3, 2])[2]?
  ∧ (Graphene.business_review_data_loader dbEx [20, 20])[0]?
        = (Graphene.business_review_data_loader dbEx [20, 20])[1]?
  ∧ (Strawberry.dataloader_business_reviews dbEx [10, 10])[0]?
        = (Strawberry.dataloader_business_reviews dbEx [10, 10])[1]?
  ∧ (Strawberry.dataloader_review_author dbEx [3, 99, 3])[0]?
        = (Strawberry.dataloader_review_author dbEx [3, 99, 3])[2]?
  ∧ (Graphdb.dataloader_business_reviews svcEx ["b1", "b1"])[0]?
        = (Graphdb.dataloader_business_reviews svcEx ["b1", "b1"])[1]? :=
  ⟨C9_duplicate_keys_equal_results.1 dbEx [10, 20, 10] 0 2 (by decide) (by decide) (by decide),
   C9_duplicate_keys_equal_results.2.1 dbEx [1, 1] 0 1 (by decide) (by decide) (by decide),
   C9_duplicate_keys_equal_results.2.2.1 dbEx [2, 3, 2] 0 2 (by decide) (by decide) (by decide),
   C9_duplicate_keys_equal_results.2.2.2.1 dbEx [20, 20] 0 1 (by decide) (by decide) (by decide),
   C9_duplicate_keys_equal_results.2.2.2.2.1 dbEx [10, 10] 0 1 (by decide) (by decide) (by decide),
   C9_duplicate_keys_equal_results.2.2.2.2.2.1 dbEx [3, 99, 3] 0 2 (by decide) (by decide)
     (by decide),
   C9_duplicate_keys_equal_results.2.2.2.2.2.2 svcEx ["b1", "b1"] 0 1 (by decide) (by decide)
     (by decide)⟩
